import Mathlib

/-!
Shallow embedding of `python_files/unittestadapter/django_handler.py`.

The file defines two entry points, `django_discovery_runner` and
`django_execution_runner`, plus a context manager `override_argv`.  The
embedding models the mutable process-global state the functions touch
(`sys.argv`, `sys.path`, `os.environ`), the observable effects (prints to
stdout and stderr, the subprocess launch, executing the loaded module, the
nested call to the loaded module entry point) as a trace of events, and the
behaviour of the external world (filesystem, subprocess exit code, module
loading, the nested call) through explicit oracle parameters.  Exceptional
termination is an `Option PyExc` result: `none` means the function returned
normally.
-/

/-- Python exception values relevant to the handler.  `systemExit` models
`SystemExit`, which derives from `BaseException` but not from `Exception`;
`otherError` models an arbitrary `Exception`-derived error carrying its
message. -/
inductive PyExc where
  | vsCodeUnittestError (msg : String)
  | otherError (msg : String)
  | systemExit
  deriving Repr, DecidableEq

/-- Modelled from the spec: `VSCodeUnittestError` is imported from
`pvsc_utils`, which is not among the sources here.  The spec calls it a
"domain-specific error" shared between the two runners, and the discovery
runner re-raises it from inside a handler for `Exception`, so it derives
from `Exception`.  `SystemExit` derives only from `BaseException` and is
therefore not caught by a handler for `Exception`. -/
def PyExc.isException : PyExc → Bool
  | .systemExit => false
  | _ => true

/-- The message text of an exception, as `str(e)` would render it inside an
f-string. -/
def PyExc.message : PyExc → String
  | .vsCodeUnittestError m => m
  | .otherError m => m
  | .systemExit => ""

/-- Process-global mutable state touched by the handler: `sys.argv`,
`sys.path` and `os.environ`. -/
structure PyState where
  argv : List String
  sysPath : List String
  environ : List (String × String)
  deriving Repr, DecidableEq

/-- Fixed facts about the interpreter and filesystem: which paths exist,
`sys.executable`, the directory containing `django_handler.py`
(`pathlib.Path(__file__).parent`) and the `pathlib` parent operation. -/
structure World where
  fsExists : String → Bool
  executable : String
  scriptDir : String
  parentOf : String → String

/-- Observable effects, in order of occurrence. -/
inductive Event where
  | printOut (msg : String)
  | printErr (msg : String)
  | subprocessRun (cmd : List String) (env : List (String × String))
  | execModule (path : String)
  | callMain (argv : List String)
  deriving Repr, DecidableEq

/-- Result of running one of the two entry points: the exception escaping it
(`none` if it returned normally), the final process-global state, and the
trace of its effects. -/
structure RunOutcome where
  result : Option PyExc
  state : PyState
  trace : List Event
  deriving Repr, DecidableEq

/-- `os.pathsep` on a POSIX system. -/
def pathsep : String := ":"

/-- Lookup in an environment mapping, as `env["PYTHONPATH"]` reads a dict. -/
def lookupEnv (env : List (String × String)) (k : String) : Option String :=
  (env.find? (fun kv => kv.1 == k)).map (fun kv => kv.2)

/-- Update or add a key in an environment mapping, as dict assignment. -/
def setEnv (env : List (String × String)) (k v : String) : List (String × String) :=
  if (env.find? (fun kv => kv.1 == k)).isSome then
    env.map (fun kv => if kv.1 == k then (k, v) else kv)
  else
    env ++ [(k, v)]

/-- The environment prepared for the child process: a copy of `os.environ`
whose `PYTHONPATH` gets the custom test runner directory prepended
(separated by `os.pathsep`), or set to it when absent. -/
def buildSubprocessEnv (scriptDir : String) (environ : List (String × String)) :
    List (String × String) :=
  match lookupEnv environ "PYTHONPATH" with
  | some old => setEnv environ "PYTHONPATH" (scriptDir ++ pathsep ++ old)
  | none => setEnv environ "PYTHONPATH" scriptDir

/-- Message of the `VSCodeUnittestError` raised on a missing `manage.py`. -/
def missingManagePyMsg : String :=
  "Error running Django, manage.py path does not exist."

/-- Error line printed by discovery on a subprocess exit code other than 0
or 1. -/
def discoveryExitCodeMsg : String :=
  "Django test discovery process exited with non-zero error code See stderr above for more details."

/-- Message of the `VSCodeUnittestError` raised when the module spec for
`manage.py` or its loader is `None`. -/
def importManagePyMsg : String :=
  "Error importing manage.py when running Django testing."

/-- The command line discovery passes to `subprocess.run`. -/
def discoveryCommand (executable manage_py_path : String) (args : List String) :
    List String :=
  [executable, manage_py_path, "test",
    "--testrunner=django_test_runner.CustomDiscoveryTestRunner"] ++ args

/-- The argument list execution installs as `sys.argv` for the nested call. -/
def executionArgv (manage_py_path : String) (args test_ids : List String) :
    List String :=
  [manage_py_path, "test",
    "--testrunner=django_test_runner.CustomExecutionTestRunner"] ++ args ++ test_ids

/-- Behaviour of `subprocess.run`: either the child completed with a return
code and captured output, or the call raised an `Exception`-derived error
(such as `OSError`) carrying a message. -/
inductive SubprocessResult where
  | completed (returncode : Int) (stdout stderr : String)
  | raised (msg : String)
  deriving Repr, DecidableEq

/-- The module spec returned by `importlib.util.spec_from_file_location`,
keeping only what the source inspects: whether `spec.loader` is present. -/
structure ModuleSpecM where
  loaderPresent : Bool
  deriving Repr, DecidableEq

/-- Behaviour of `spec.loader.exec_module(manage_module)`: top-level code of
`manage.py` runs here and may raise anything, including `SystemExit`. -/
inductive ExecModuleResult where
  | ok
  | raised (exc : PyExc)
  deriving Repr, DecidableEq

/-- Behaviour of the nested `manage_module.main()` call: it may return or
raise anything, including `SystemExit`. -/
inductive MainResult where
  | returned
  | raised (exc : PyExc)
  deriving Repr, DecidableEq

/-- Oracle bundling the external behaviour execution depends on:
`spec_from_file_location` (`none` models a `None` spec), `exec_module`, and
the nested `main()` call. -/
structure ExecOracle where
  moduleSpec : Option ModuleSpecM
  execModule : ExecModuleResult
  mainCall : MainResult
  deriving Repr, DecidableEq

/-- `django_discovery_runner(manage_py_path, args)`: validates the path,
then inside `try` prepends the script directory to `sys.path`, builds the
child environment and command, prints the command, runs the child process,
forwards its stderr and stdout, and prints an error line when the return
code is neither 0 nor 1; any `Exception` from the body is re-raised wrapped
in `VSCodeUnittestError`. -/
def django_discovery_runner (w : World) (sub : SubprocessResult) (s : PyState)
    (manage_py_path : String) (args : List String) : RunOutcome :=
  if w.fsExists manage_py_path = false then
    { result := some (PyExc.vsCodeUnittestError missingManagePyMsg),
      state := s, trace := [] }
  else
    let s1 : PyState := { s with sysPath := w.scriptDir :: s.sysPath }
    let env := buildSubprocessEnv w.scriptDir s.environ
    let command := discoveryCommand w.executable manage_py_path args
    let trace0 : List Event :=
      [Event.printOut ("Running Django tests with command: " ++ toString command),
        Event.subprocessRun command env]
    match sub with
    | SubprocessResult.raised msg =>
        { result := some (PyExc.vsCodeUnittestError
            ("Error during Django discovery: " ++ msg)),
          state := s1, trace := trace0 }
    | SubprocessResult.completed rc out err =>
        let trace1 := trace0 ++ [Event.printErr err, Event.printOut out]
        if rc = 0 ∨ rc = 1 then
          { result := none, state := s1, trace := trace1 }
        else
          { result := none, state := s1,
            trace := trace1 ++ [Event.printErr discoveryExitCodeMsg] }

/-- The `except Exception` handler of `django_execution_runner`: an
`Exception`-derived error is caught and reported on stderr, the function
returning normally; anything else (a `SystemExit` reaching this point)
propagates. -/
def executionHandle (s : PyState) (tr : List Event) (exc : PyExc) : RunOutcome :=
  if exc.isException then
    { result := none, state := s,
      trace := tr ++ [Event.printErr
        ("Error during Django test execution: " ++ exc.message)] }
  else
    { result := some exc, state := s, trace := tr }

/-- `django_execution_runner(manage_py_path, test_ids, args)`: validates the
path, then inside `try` prepends the script directory to `sys.path`, builds
(and never uses) a child environment, prepends the project directory to
`sys.path`, loads `manage.py` as a module (raising `VSCodeUnittestError`
when the spec or its loader is `None`), executes it, and calls its `main`
under `override_argv(manage_argv)` and `suppress(SystemExit)`; `sys.argv`
is restored by the `finally` of `override_argv`, and any `Exception` from
the body is caught and reported on stderr. -/
def django_execution_runner (w : World) (o : ExecOracle) (s : PyState)
    (manage_py_path : String) (test_ids : List String) (args : List String) :
    RunOutcome :=
  if w.fsExists manage_py_path = false then
    { result := some (PyExc.vsCodeUnittestError missingManagePyMsg),
      state := s, trace := [] }
  else
    let s1 : PyState := { s with sysPath := w.scriptDir :: s.sysPath }
    let _env := buildSubprocessEnv w.scriptDir s.environ
    let projectDir := w.parentOf manage_py_path
    let s2 : PyState := { s1 with sysPath := projectDir :: s1.sysPath }
    let trace0 : List Event :=
      [Event.printOut ("Django project directory: " ++ projectDir)]
    match o.moduleSpec with
    | none =>
        executionHandle s2 trace0 (PyExc.vsCodeUnittestError importManagePyMsg)
    | some ms =>
        if ms.loaderPresent = false then
          executionHandle s2 trace0 (PyExc.vsCodeUnittestError importManagePyMsg)
        else
          let trace1 := trace0 ++ [Event.execModule manage_py_path]
          match o.execModule with
          | ExecModuleResult.raised exc => executionHandle s2 trace1 exc
          | ExecModuleResult.ok =>
            let manage_argv := executionArgv manage_py_path args test_ids
            let trace2 := trace1 ++
              [Event.printOut ("Django manage.py arguments: " ++ toString manage_argv)]
            let sIn : PyState := { s2 with argv := manage_argv }
            let trace3 := trace2 ++ [Event.callMain sIn.argv]
            let sOut : PyState := { sIn with argv := s2.argv }
            match o.mainCall with
            | MainResult.returned => { result := none, state := sOut, trace := trace3 }
            | MainResult.raised PyExc.systemExit =>
                { result := none, state := sOut, trace := trace3 }
            | MainResult.raised exc => executionHandle sOut trace3 exc

/-- The command lines of the subprocess launches in a trace. -/
def subprocessCommands (tr : List Event) : List (List String) :=
  tr.filterMap (fun e =>
    match e with
    | Event.subprocessRun cmd _ => some cmd
    | _ => none)

/-- The `sys.argv` values in force at each nested `main()` call in a trace. -/
def mainCallArgvs (tr : List Event) : List (List String) :=
  tr.filterMap (fun e =>
    match e with
    | Event.callMain a => some a
    | _ => none)

/-- A concrete world for witnesses: exactly one path exists. -/
def wTest : World where
  fsExists := fun p => p == "/proj/manage.py"
  executable := "/usr/bin/python3"
  scriptDir := "/ext/unittestadapter"
  parentOf := fun _ => "/proj"

/-- A concrete starting process state for witnesses. -/
def sTest : PyState where
  argv := ["adapter"]
  sysPath := ["/lib"]
  environ := [("PATH", "/usr/bin")]

/-- A concrete oracle for witnesses: loading and the nested call succeed. -/
def oTestOk : ExecOracle where
  moduleSpec := some { loaderPresent := true }
  execModule := ExecModuleResult.ok
  mainCall := MainResult.returned

/-- C1: for every `manage.py` path that does not exist, both
`django_discovery_runner` and `django_execution_runner` raise
`VSCodeUnittestError` before performing any subprocess launch, environment
mutation or module loading: the result is that error, the process-global
state is unchanged, and the effect trace is empty. -/
theorem missing_manage_py_raises_before_any_effect
    (w : World) (sub : SubprocessResult) (o : ExecOracle) (s : PyState)
    (p : String) (test_ids args : List String)
    (h : w.fsExists p = false) :
    django_discovery_runner w sub s p args =
      { result := some (PyExc.vsCodeUnittestError missingManagePyMsg),
        state := s, trace := [] } ∧
    django_execution_runner w o s p test_ids args =
      { result := some (PyExc.vsCodeUnittestError missingManagePyMsg),
        state := s, trace := [] } := by
  constructor <;> simp [django_discovery_runner, django_execution_runner, h]

/-- C1 witness at a concrete nonexistent path. -/
theorem missing_manage_py_raises_before_any_effect_witness :
    wTest.fsExists "/nope/manage.py" = false ∧
    (django_discovery_runner wTest (SubprocessResult.completed 0 "" "") sTest
        "/nope/manage.py" [] =
      { result := some (PyExc.vsCodeUnittestError missingManagePyMsg),
        state := sTest, trace := [] } ∧
    django_execution_runner wTest oTestOk sTest "/nope/manage.py" ["t"] [] =
      { result := some (PyExc.vsCodeUnittestError missingManagePyMsg),
        state := sTest, trace := [] }) :=
  ⟨by rfl,
    missing_manage_py_raises_before_any_effect wTest
      (SubprocessResult.completed 0 "" "") oTestOk sTest "/nope/manage.py"
      ["t"] [] (by rfl)⟩

/-- C5: for every existing `manage.py` path and argument list, discovery
launches exactly one child process, and its command line is the interpreter,
the `manage.py` path, `test`, the custom discovery test runner flag, then
the passthrough arguments in order. -/
theorem discovery_launches_exactly_one_subprocess
    (w : World) (sub : SubprocessResult) (s : PyState)
    (p : String) (args : List String) (h : w.fsExists p = true) :
    subprocessCommands (django_discovery_runner w sub s p args).trace =
      [[w.executable, p, "test",
        "--testrunner=django_test_runner.CustomDiscoveryTestRunner"] ++ args] := by
  cases sub with
  | completed rc out err =>
      by_cases hrc : rc = 0 ∨ rc = 1 <;>
        simp [django_discovery_runner, h, hrc, subprocessCommands,
          discoveryCommand]
  | raised msg =>
      simp [django_discovery_runner, h, subprocessCommands, discoveryCommand]

/-- C5 witness at a concrete existing path and arguments. -/
theorem discovery_launches_exactly_one_subprocess_witness :
    wTest.fsExists "/proj/manage.py" = true ∧
    subprocessCommands
      (django_discovery_runner wTest (SubprocessResult.completed 2 "o" "e")
        sTest "/proj/manage.py" ["-v"]).trace =
      [[wTest.executable, "/proj/manage.py", "test",
        "--testrunner=django_test_runner.CustomDiscoveryTestRunner"] ++ ["-v"]] :=
  ⟨by rfl,
    discovery_launches_exactly_one_subprocess wTest
      (SubprocessResult.completed 2 "o" "e") sTest "/proj/manage.py" ["-v"]
      (by rfl)⟩

/-- C4: for every existing `manage.py` path, when the subprocess completes
with any exit code the discovery runner returns normally (exit codes 0 and 1
included), and for an exit code other than 0 or 1 it additionally prints the
error line to standard error; no exit code is escalated to an exception. -/
theorem discovery_exit_codes_never_escalated
    (w : World) (s : PyState) (p : String) (args : List String)
    (rc : Int) (out err : String) (h : w.fsExists p = true) :
    (django_discovery_runner w (SubprocessResult.completed rc out err)
        s p args).result = none ∧
    (¬(rc = 0 ∨ rc = 1) →
      Event.printErr discoveryExitCodeMsg ∈
        (django_discovery_runner w (SubprocessResult.completed rc out err)
          s p args).trace) := by
  by_cases hrc : rc = 0 ∨ rc = 1 <;>
    simp [django_discovery_runner, h, hrc]

/-- C4 witness at a concrete existing path and exit code 2. -/
theorem discovery_exit_codes_never_escalated_witness :
    wTest.fsExists "/proj/manage.py" = true ∧
    ((django_discovery_runner wTest (SubprocessResult.completed 2 "o" "e")
        sTest "/proj/manage.py" []).result = none ∧
    (¬((2 : Int) = 0 ∨ (2 : Int) = 1) →
      Event.printErr discoveryExitCodeMsg ∈
        (django_discovery_runner wTest (SubprocessResult.completed 2 "o" "e")
          sTest "/proj/manage.py" []).trace)) :=
  ⟨by rfl,
    discovery_exit_codes_never_escalated wTest sTest "/proj/manage.py" [] 2
      "o" "e" (by rfl)⟩

/-- C7: any `Exception` raised inside the discovery runner after the path
check is caught and re-raised wrapped in `VSCodeUnittestError` (first
conjunct, for the fallible `subprocess.run` step), and consequently the only
exception `django_discovery_runner` can raise — on any input, including a
missing path — is a `VSCodeUnittestError` (second conjunct). -/
theorem discovery_raises_only_domain_error
    (w : World) (sub : SubprocessResult) (s : PyState)
    (p : String) (args : List String) :
    (∀ msg, w.fsExists p = true → sub = SubprocessResult.raised msg →
      (django_discovery_runner w sub s p args).result =
        some (PyExc.vsCodeUnittestError
          ("Error during Django discovery: " ++ msg))) ∧
    ((django_discovery_runner w sub s p args).result = none ∨
      ∃ m, (django_discovery_runner w sub s p args).result =
        some (PyExc.vsCodeUnittestError m)) := by
  constructor
  · intro msg h hsub
    subst hsub
    simp [django_discovery_runner, h]
  · by_cases h : w.fsExists p = false
    · simp [django_discovery_runner, h]
    · rw [Bool.not_eq_false] at h
      cases sub with
      | completed rc out err =>
          by_cases hrc : rc = 0 ∨ rc = 1 <;>
            simp [django_discovery_runner, h, hrc]
      | raised msg =>
          simp [django_discovery_runner, h]

/-- C7 witness: a concrete failing `subprocess.run` is wrapped in the domain
error. -/
theorem discovery_raises_only_domain_error_witness :
    wTest.fsExists "/proj/manage.py" = true ∧
    (django_discovery_runner wTest (SubprocessResult.raised "boom") sTest
        "/proj/manage.py" []).result =
      some (PyExc.vsCodeUnittestError
        ("Error during Django discovery: " ++ "boom")) :=
  ⟨by rfl,
    (discovery_raises_only_domain_error wTest (SubprocessResult.raised "boom")
      sTest "/proj/manage.py" []).1 "boom" (by rfl) rfl⟩

/-- Helper: once the path check passes, the final process-global state of
the execution runner is always the input state with the project directory
and the script directory pushed onto `sys.path` — in every branch, including
every exceptional one, `sys.argv` and `os.environ` are back to their input
values. -/
theorem execution_runner_state_eq (w : World) (o : ExecOracle) (s : PyState)
    (p : String) (test_ids args : List String) (h : w.fsExists p = true) :
    (django_execution_runner w o s p test_ids args).state =
      { s with sysPath := w.parentOf p :: w.scriptDir :: s.sysPath } := by
  cases hspec : o.moduleSpec with
  | none =>
      simp [django_execution_runner, h, hspec, executionHandle,
        PyExc.isException]
  | some ms =>
    by_cases hld : ms.loaderPresent = false
    · simp [django_execution_runner, h, hspec, hld, executionHandle,
        PyExc.isException]
    · cases hex : o.execModule with
      | raised exc =>
          cases exc <;>
            simp [django_execution_runner, h, hspec, hld, hex, executionHandle,
              PyExc.isException]
      | ok =>
          cases hm : o.mainCall with
          | returned =>
              simp [django_execution_runner, h, hspec, hld, hex, hm]
          | raised exc =>
              cases exc <;>
                simp [django_execution_runner, h, hspec, hld, hex, hm,
                  executionHandle, PyExc.isException]

/-- C2: for every existing `manage.py` path, when module loading succeeds
the execution runner performs exactly one nested `main()` call, and the
`sys.argv` in force at that call is exactly the `manage.py` path, `test`,
the custom execution test runner flag, then the passthrough arguments in
order, then the test identifiers in order. -/
theorem execution_sets_argv_exactly
    (w : World) (o : ExecOracle) (s : PyState) (p : String)
    (test_ids args : List String) (h : w.fsExists p = true)
    (ms : ModuleSpecM) (hspec : o.moduleSpec = some ms)
    (hld : ms.loaderPresent = true)
    (hex : o.execModule = ExecModuleResult.ok) :
    mainCallArgvs (django_execution_runner w o s p test_ids args).trace =
      [[p, "test", "--testrunner=django_test_runner.CustomExecutionTestRunner"]
        ++ args ++ test_ids] := by
  cases hm : o.mainCall with
  | returned =>
      simp [django_execution_runner, h, hspec, hld, hex, hm, mainCallArgvs,
        executionArgv]
  | raised exc =>
      cases exc <;>
        simp [django_execution_runner, h, hspec, hld, hex, hm, mainCallArgvs,
          executionArgv, executionHandle, PyExc.isException]

/-- C2 witness at a concrete project, one passthrough argument and one test
identifier. -/
theorem execution_sets_argv_exactly_witness :
    (wTest.fsExists "/proj/manage.py" = true ∧
      oTestOk.moduleSpec = some { loaderPresent := true } ∧
      oTestOk.execModule = ExecModuleResult.ok) ∧
    mainCallArgvs
      (django_execution_runner wTest oTestOk sTest "/proj/manage.py"
        ["app.tests.T1"] ["--keepdb"]).trace =
      [["/proj/manage.py", "test",
        "--testrunner=django_test_runner.CustomExecutionTestRunner"]
        ++ ["--keepdb"] ++ ["app.tests.T1"]] :=
  ⟨⟨by rfl, rfl, rfl⟩,
    execution_sets_argv_exactly wTest oTestOk sTest "/proj/manage.py"
      ["app.tests.T1"] ["--keepdb"] (by rfl) { loaderPresent := true } rfl rfl
      rfl⟩

/-- C3: whenever the execution runner reaches the nested `main()` call
(path exists, module spec and loader present, module execution succeeded),
`sys.argv` is back to its prior value on return, whatever the nested call
does — return, raise, or attempt process exit. -/
theorem execution_restores_argv
    (w : World) (o : ExecOracle) (s : PyState) (p : String)
    (test_ids args : List String) (h : w.fsExists p = true)
    (ms : ModuleSpecM) (hspec : o.moduleSpec = some ms)
    (hld : ms.loaderPresent = true)
    (hex : o.execModule = ExecModuleResult.ok) :
    (django_execution_runner w o s p test_ids args).state.argv = s.argv := by
  rw [execution_runner_state_eq w o s p test_ids args h]

/-- C3 witness: the nested call raises an error, and `sys.argv` is still
restored. -/
theorem execution_restores_argv_witness :
    (wTest.fsExists "/proj/manage.py" = true ∧
      oTestOk.moduleSpec = some { loaderPresent := true } ∧
      oTestOk.execModule = ExecModuleResult.ok) ∧
    (django_execution_runner wTest oTestOk sTest "/proj/manage.py" ["t"]
        []).state.argv = sTest.argv :=
  ⟨⟨by rfl, rfl, rfl⟩,
    execution_restores_argv wTest oTestOk sTest "/proj/manage.py" ["t"] []
      (by rfl) { loaderPresent := true } rfl rfl rfl⟩

/-- C8: when the nested `main()` call raises `SystemExit`, the
`suppress(SystemExit)` context swallows it: the execution runner returns
normally and the `SystemExit` does not propagate to the caller. -/
theorem execution_suppresses_system_exit
    (w : World) (o : ExecOracle) (s : PyState) (p : String)
    (test_ids args : List String) (h : w.fsExists p = true)
    (ms : ModuleSpecM) (hspec : o.moduleSpec = some ms)
    (hld : ms.loaderPresent = true)
    (hex : o.execModule = ExecModuleResult.ok)
    (hm : o.mainCall = MainResult.raised PyExc.systemExit) :
    (django_execution_runner w o s p test_ids args).result = none := by
  simp [django_execution_runner, h, hspec, hld, hex, hm]

/-- C8 witness: a concrete run whose nested call raises `SystemExit`
returns normally. -/
theorem execution_suppresses_system_exit_witness :
    (wTest.fsExists "/proj/manage.py" = true ∧
      ({ oTestOk with
          mainCall := MainResult.raised PyExc.systemExit } : ExecOracle).mainCall =
        MainResult.raised PyExc.systemExit) ∧
    (django_execution_runner wTest
        { oTestOk with mainCall := MainResult.raised PyExc.systemExit } sTest
        "/proj/manage.py" ["t"] []).result = none :=
  ⟨⟨by rfl, rfl⟩,
    execution_suppresses_system_exit wTest
      { oTestOk with mainCall := MainResult.raised PyExc.systemExit } sTest
      "/proj/manage.py" ["t"] [] (by rfl) { loaderPresent := true } rfl rfl
      rfl rfl⟩

/-- C10: when the module spec for `manage.py` or its loader is `None`, the
`VSCodeUnittestError` raised for the import failure is itself caught by the
surrounding `except Exception` handler: the execution runner returns
normally and the caller only sees the message on standard error. -/
theorem execution_import_failure_swallowed
    (w : World) (o : ExecOracle) (s : PyState) (p : String)
    (test_ids args : List String) (h : w.fsExists p = true)
    (hspec : o.moduleSpec = none ∨
      ∃ ms, o.moduleSpec = some ms ∧ ms.loaderPresent = false) :
    (django_execution_runner w o s p test_ids args).result = none ∧
    Event.printErr ("Error during Django test execution: " ++ importManagePyMsg)
      ∈ (django_execution_runner w o s p test_ids args).trace := by
  rcases hspec with hn | ⟨ms, hsome, hld⟩
  · simp [django_execution_runner, h, hn, executionHandle, PyExc.isException,
      PyExc.message]
  · simp [django_execution_runner, h, hsome, hld, executionHandle,
      PyExc.isException, PyExc.message]

/-- C10 witness: a concrete run whose module spec is `None`. -/
theorem execution_import_failure_swallowed_witness :
    (wTest.fsExists "/proj/manage.py" = true ∧
      ({ oTestOk with moduleSpec := none } : ExecOracle).moduleSpec = none) ∧
    ((django_execution_runner wTest { oTestOk with moduleSpec := none } sTest
        "/proj/manage.py" ["t"] []).result = none ∧
      Event.printErr
          ("Error during Django test execution: " ++ importManagePyMsg) ∈
        (django_execution_runner wTest { oTestOk with moduleSpec := none }
          sTest "/proj/manage.py" ["t"] []).trace) :=
  ⟨⟨by rfl, rfl⟩,
    execution_import_failure_swallowed wTest
      { oTestOk with moduleSpec := none } sTest "/proj/manage.py" ["t"] []
      (by rfl) (Or.inl rfl)⟩

/-- An oracle whose module loading step raises `SystemExit`: `manage.py`
top-level code calls `sys.exit` during `exec_module`. -/
def oSysExitLoad : ExecOracle where
  moduleSpec := some { loaderPresent := true }
  execModule := ExecModuleResult.raised PyExc.systemExit
  mainCall := MainResult.returned

/-- C6 counterexample: with an existing `manage.py` whose module execution
raises `SystemExit`, the exception is not caught — `except Exception` does
not cover `SystemExit` and `suppress(SystemExit)` only wraps the nested
`main()` call — so an exception does escape `django_execution_runner` after
the path check has passed, refuting the claim that the function then always
returns normally. -/
theorem execution_exception_escape_counterexample :
    wTest.fsExists "/proj/manage.py" = true ∧
    (django_execution_runner wTest oSysExitLoad sTest "/proj/manage.py"
        ["t"] []).result = some PyExc.systemExit :=
  ⟨by rfl, by rfl⟩

/-- C6 (amended): once the path check has passed, any `Exception`-derived
error raised inside `django_execution_runner` — during module loading or the
nested `main()` call — is caught, a message is printed to standard error,
and the function returns normally; only a `SystemExit` raised during module
loading escapes (one from the nested call is suppressed). -/
theorem execution_swallows_exceptions_amended
    (w : World) (o : ExecOracle) (s : PyState) (p : String)
    (test_ids args : List String) (ms : ModuleSpecM) (exc exc2 : PyExc)
    (h : w.fsExists p = true)
    (hload : ∀ e, o.execModule = ExecModuleResult.raised e →
      e.isException = true) :
    (django_execution_runner w o s p test_ids args).result = none ∧
    (o.moduleSpec = some ms → ms.loaderPresent = true →
      o.execModule = ExecModuleResult.raised exc →
      Event.printErr ("Error during Django test execution: " ++ exc.message)
        ∈ (django_execution_runner w o s p test_ids args).trace) ∧
    (o.moduleSpec = some ms → ms.loaderPresent = true →
      o.execModule = ExecModuleResult.ok →
      o.mainCall = MainResult.raised exc2 → exc2.isException = true →
      Event.printErr ("Error during Django test execution: " ++ exc2.message)
        ∈ (django_execution_runner w o s p test_ids args).trace) := by
  refine ⟨?_, ?_, ?_⟩
  · cases hspec : o.moduleSpec with
    | none =>
        simp [django_execution_runner, h, hspec, executionHandle,
          PyExc.isException]
    | some ms2 =>
      by_cases hld : ms2.loaderPresent = false
      · simp [django_execution_runner, h, hspec, hld, executionHandle,
          PyExc.isException]
      · cases hex : o.execModule with
        | raised e =>
            have hE := hload e hex
            cases e with
            | systemExit => simp [PyExc.isException] at hE
            | vsCodeUnittestError m =>
                simp [django_execution_runner, h, hspec, hld, hex,
                  executionHandle, PyExc.isException]
            | otherError m =>
                simp [django_execution_runner, h, hspec, hld, hex,
                  executionHandle, PyExc.isException]
        | ok =>
            cases hm : o.mainCall with
            | returned =>
                simp [django_execution_runner, h, hspec, hld, hex, hm]
            | raised e =>
                cases e <;>
                  simp [django_execution_runner, h, hspec, hld, hex, hm,
                    executionHandle, PyExc.isException]
  · intro hspec hld hex
    have hE := hload exc hex
    cases exc with
    | systemExit => simp [PyExc.isException] at hE
    | vsCodeUnittestError m =>
        simp [django_execution_runner, h, hspec, hld, hex, executionHandle,
          PyExc.isException, PyExc.message]
    | otherError m =>
        simp [django_execution_runner, h, hspec, hld, hex, executionHandle,
          PyExc.isException, PyExc.message]
  · intro hspec hld hex hm hE
    cases exc2 with
    | systemExit => simp [PyExc.isException] at hE
    | vsCodeUnittestError m =>
        simp [django_execution_runner, h, hspec, hld, hex, hm,
          executionHandle, PyExc.isException, PyExc.message]
    | otherError m =>
        simp [django_execution_runner, h, hspec, hld, hex, hm,
          executionHandle, PyExc.isException, PyExc.message]

/-- An oracle whose nested `main()` call raises an `Exception`-derived
error while loading succeeded. -/
def oMainErr : ExecOracle where
  moduleSpec := some { loaderPresent := true }
  execModule := ExecModuleResult.ok
  mainCall := MainResult.raised (PyExc.otherError "boom")

/-- C6 (amended) witness: the nested `main()` call raises an
`Exception`-derived error at a concrete input; it is swallowed and its
message lands on standard error. -/
theorem execution_swallows_exceptions_amended_witness :
    (wTest.fsExists "/proj/manage.py" = true ∧
      oMainErr.mainCall = MainResult.raised (PyExc.otherError "boom")) ∧
    ((django_execution_runner wTest oMainErr sTest "/proj/manage.py" ["t"]
        []).result = none ∧
    (oMainErr.moduleSpec = some { loaderPresent := true } →
      ModuleSpecM.loaderPresent { loaderPresent := true } = true →
      oMainErr.execModule =
          ExecModuleResult.raised (PyExc.otherError "boom") →
      Event.printErr
          ("Error during Django test execution: "
            ++ PyExc.message (PyExc.otherError "boom"))
        ∈ (django_execution_runner wTest oMainErr sTest "/proj/manage.py"
            ["t"] []).trace) ∧
    (oMainErr.moduleSpec = some { loaderPresent := true } →
      ModuleSpecM.loaderPresent { loaderPresent := true } = true →
      oMainErr.execModule = ExecModuleResult.ok →
      oMainErr.mainCall = MainResult.raised (PyExc.otherError "boom") →
      PyExc.isException (PyExc.otherError "boom") = true →
      Event.printErr
          ("Error during Django test execution: "
            ++ PyExc.message (PyExc.otherError "boom"))
        ∈ (django_execution_runner wTest oMainErr sTest "/proj/manage.py"
            ["t"] []).trace)) :=
  ⟨⟨by rfl, rfl⟩,
    execution_swallows_exceptions_amended wTest oMainErr sTest
      "/proj/manage.py" ["t"] [] { loaderPresent := true }
      (PyExc.otherError "boom") (PyExc.otherError "boom") (by rfl)
      (fun e he => nomatch he)⟩

/-- C9 counterexample: at a concrete existing path, discovery returns with
`sys.path` differing from its prior value — the script directory insertion
is never undone — refuting the claim that the transient `sys.argv` override
is the only global mutation. -/
theorem runners_mutate_sys_path_counterexample :
    wTest.fsExists "/proj/manage.py" = true ∧
    (django_discovery_runner wTest (SubprocessResult.completed 0 "" "") sTest
        "/proj/manage.py" []).state.sysPath ≠ sTest.sysPath :=
  ⟨by rfl, by decide⟩

/-- C9 (amended): both runners do leave one persistent global change —
discovery prepends the script directory to `sys.path`, and execution
additionally prepends the project directory — but nothing else persists:
`sys.argv` and `os.environ` are unchanged on return (the environment passed
to the child is a mutated copy, and the `sys.argv` override is restored
before return). -/
theorem runners_global_state_amended
    (w : World) (sub : SubprocessResult) (o : ExecOracle) (s : PyState)
    (p : String) (test_ids args : List String) (h : w.fsExists p = true) :
    (django_discovery_runner w sub s p args).state =
      { s with sysPath := w.scriptDir :: s.sysPath } ∧
    (django_execution_runner w o s p test_ids args).state =
      { s with sysPath := w.parentOf p :: w.scriptDir :: s.sysPath } := by
  constructor
  · cases sub with
    | completed rc out err =>
        by_cases hrc : rc = 0 ∨ rc = 1 <;>
          simp [django_discovery_runner, h, hrc]
    | raised msg => simp [django_discovery_runner, h]
  · exact execution_runner_state_eq w o s p test_ids args h

/-- C9 (amended) witness at a concrete existing path. -/
theorem runners_global_state_amended_witness :
    wTest.fsExists "/proj/manage.py" = true ∧
    ((django_discovery_runner wTest (SubprocessResult.completed 0 "" "")
        sTest "/proj/manage.py" []).state =
      { sTest with sysPath := wTest.scriptDir :: sTest.sysPath } ∧
    (django_execution_runner wTest oTestOk sTest "/proj/manage.py" ["t"]
        []).state =
      { sTest with
          sysPath :=
            wTest.parentOf "/proj/manage.py" :: wTest.scriptDir
              :: sTest.sysPath }) :=
  ⟨by rfl,
    runners_global_state_amended wTest (SubprocessResult.completed 0 "" "")
      oTestOk sTest "/proj/manage.py" ["t"] [] (by rfl)⟩
